import Mathlib

/-!
Verification of the location-authorization hook (`useLocationAuth`) and the
spot-list component (`SpotList`) of the ulsan_proto tourism check-in app.

The hook's numeric computations (Haversine distance over device coordinates)
are embedded over the real numbers; the hook's React state is embedded as an
explicit `LocationState` record with the asynchronous geolocation request
modelled as an `Except String Coordinates` outcome passed to the state
transition. The `SpotList` component's rendering is embedded as a pure
function from the input spot list to a list of card descriptions.
-/

open Real

/-- A latitude/longitude pair, as in the `Coordinates` interface. -/
structure Coordinates where
  lat : ℝ
  lng : ℝ

/-- Degrees to radians, as in `(deg * Math.PI) / 180`. -/
noncomputable def toRad (deg : ℝ) : ℝ := deg * Real.pi / 180

/-- Two-argument arctangent with the JavaScript `Math.atan2(y, x)` branch
conventions. -/
noncomputable def atan2 (y x : ℝ) : ℝ :=
  if 0 < x then Real.arctan (y / x)
  else if x < 0 ∧ 0 ≤ y then Real.arctan (y / x) + Real.pi
  else if x < 0 ∧ y < 0 then Real.arctan (y / x) - Real.pi
  else if x = 0 ∧ 0 < y then Real.pi / 2
  else if x = 0 ∧ y < 0 then -(Real.pi / 2)
  else 0

/-- The intermediate `a` of the Haversine computation in `calculateDistance`:
`Math.sin(Δφ/2) * Math.sin(Δφ/2) + Math.cos(φ1) * Math.cos(φ2) * Math.sin(Δλ/2) * Math.sin(Δλ/2)`. -/
noncomputable def haversineA (coord1 coord2 : Coordinates) : ℝ :=
  Real.sin (toRad (coord2.lat - coord1.lat) / 2) * Real.sin (toRad (coord2.lat - coord1.lat) / 2)
    + Real.cos (toRad coord1.lat) * Real.cos (toRad coord2.lat)
      * Real.sin (toRad (coord2.lng - coord1.lng) / 2)
      * Real.sin (toRad (coord2.lng - coord1.lng) / 2)

/-- The hook's `calculateDistance`: Haversine distance in meters with Earth
radius `R = 6371e3`, `c = 2 * Math.atan2(Math.sqrt(a), Math.sqrt(1 - a))`,
result `R * c`. -/
noncomputable def calculateDistance (coord1 coord2 : Coordinates) : ℝ :=
  6371e3 * (2 * atan2 (Real.sqrt (haversineA coord1 coord2))
    (Real.sqrt (1 - haversineA coord1 coord2)))

/-- The spec's Haversine formula, stated in its own words:
`a = sin²(Δφ/2) + cos φ1 · cos φ2 · sin²(Δλ/2)`, `c = 2·atan2(√a, √(1−a))`,
`result = R·c` with `R = 6371000` meters and angles in radians. -/
noncomputable def specHaversineA (coord1 coord2 : Coordinates) : ℝ :=
  Real.sin (toRad (coord2.lat - coord1.lat) / 2) ^ 2
    + Real.cos (toRad coord1.lat) * Real.cos (toRad coord2.lat)
      * Real.sin (toRad (coord2.lng - coord1.lng) / 2) ^ 2

/-- The spec's great-circle distance: `R·c` with `R = 6371000` meters. -/
noncomputable def specHaversineDistance (coord1 coord2 : Coordinates) : ℝ :=
  6371000 * (2 * atan2 (Real.sqrt (specHaversineA coord1 coord2))
    (Real.sqrt (1 - specHaversineA coord1 coord2)))

/-- The default allowed radius: `allowedRadius = 300` in the hook's props
destructuring; `Option.none` models an omitted prop. -/
noncomputable def resolveRadius (allowedRadius : Option ℝ) : ℝ :=
  allowedRadius.getD 300

/-- The hook's derived `distance`:
`currentLocation ? calculateDistance(currentLocation, targetLocation) : null`. -/
noncomputable def hookDistance (currentLocation : Option Coordinates)
    (targetLocation : Coordinates) : Option ℝ :=
  match currentLocation with
  | Option.none => Option.none
  | Option.some c => Option.some (calculateDistance c targetLocation)

/-- The hook's `isWithinRange` memo: `true` under the test-mode bypass,
otherwise `distance !== null && distance <= allowedRadius`. -/
noncomputable def isWithinRange (bypassLocationCheck : Bool) (distance : Option ℝ)
    (allowedRadius : ℝ) : Bool :=
  if bypassLocationCheck then
    true
  else
    match distance with
    | Option.none => false
    | Option.some d => decide (d ≤ allowedRadius)

/-- The geolocation request options passed to
`navigator.geolocation.getCurrentPosition` in `getCurrentLocationWithKakao`. -/
structure GeoOptions where
  enableHighAccuracy : Bool
  timeout : Nat
  maximumAge : Nat

/-- The options literal `{ enableHighAccuracy: true, timeout: 15000, maximumAge: 60000 }`. -/
def geoRequestOptions : GeoOptions :=
  { enableHighAccuracy := true, timeout := 15000, maximumAge := 60000 }

/-- The message for `PERMISSION_DENIED`. -/
def permissionDeniedMessage : String :=
  "위치 정보 접근이 거부되었습니다. 브라우저 설정에서 위치 권한을 허용해주세요."

/-- The message for `POSITION_UNAVAILABLE`. -/
def positionUnavailableMessage : String :=
  "위치 정보를 사용할 수 없습니다. GPS가 켜져있는지 확인해주세요."

/-- The message for `TIMEOUT`. -/
def timeoutMessage : String :=
  "위치 정보 요청 시간이 초과되었습니다."

/-- The `default` message of the error switch. -/
def genericGeolocationErrorMessage : String :=
  "위치 정보를 가져오는 중 오류가 발생했습니다."

/-- The error message selected by the `switch (error.code)` in
`getCurrentLocationWithKakao`; codes 1, 2, 3 are the W3C
PERMISSION_DENIED, POSITION_UNAVAILABLE and TIMEOUT constants. -/
def geolocationErrorMessage (code : Nat) : String :=
  if code = 1 then permissionDeniedMessage
  else if code = 2 then positionUnavailableMessage
  else if code = 3 then timeoutMessage
  else genericGeolocationErrorMessage

/-- The message rejected when `navigator.geolocation` is absent. -/
def unsupportedBrowserMessage : String :=
  "이 브라우저는 위치 서비스를 지원하지 않습니다."

/-- The observable behaviour of the browser geolocation API for one request:
the API is absent, it delivers a position, or it delivers an error code. -/
inductive GeoRequestInput where
  | unsupported : GeoRequestInput
  | position : Coordinates → GeoRequestInput
  | geoError : Nat → GeoRequestInput

/-- The function `getCurrentLocationWithKakao` as a function of the browser behaviour:
resolves with the coordinates on success, rejects with the message selected by
the error taxonomy otherwise. (The Kakao geocoder call on success only logs
and does not affect the resolved value.) -/
def getCurrentLocationWithKakao (input : GeoRequestInput) : Except String Coordinates :=
  match input with
  | GeoRequestInput.unsupported => Except.error unsupportedBrowserMessage
  | GeoRequestInput.position coords => Except.ok coords
  | GeoRequestInput.geoError code => Except.error (geolocationErrorMessage code)

/-- The hook's React state that `getCurrentLocation` reads and writes. -/
structure LocationState where
  currentLocation : Option Coordinates
  locationError : Option String
  isLocationEnabled : Bool
  isLoading : Bool

/-- The initial `useState` values of the hook. -/
def initialState : LocationState :=
  { currentLocation := Option.none, locationError := Option.none,
    isLocationEnabled := false, isLoading := false }

/-- The fixed Ulsan coordinates substituted in test mode:
`{ lat: 35.5384, lng: 129.3114 }`. -/
def ulsanCoords : Coordinates := { lat := 35.5384, lng := 129.3114 }

/-- The requesting phase of `getCurrentLocation` (bypass off):
`setIsLoading(true); setLocationError(null)`. -/
def beginRequest (s : LocationState) : LocationState :=
  { s with isLoading := true, locationError := Option.none }

/-- The try/catch/finally of `getCurrentLocation` applied to the outcome of
the awaited geolocation request: on success set the location, enable, clear
the error; on failure record the message and disable; in both cases
`finally` clears `isLoading`. -/
def settleRequest (result : Except String Coordinates) (s : LocationState) : LocationState :=
  match result with
  | Except.ok coords =>
    { s with currentLocation := Option.some coords, isLocationEnabled := true,
             locationError := Option.none, isLoading := false }
  | Except.error msg =>
    { s with locationError := Option.some msg, isLocationEnabled := false,
             isLoading := false }

/-- The hook's `getCurrentLocation`: with the test-mode bypass on it returns early after
setting the fixed coordinates and enabling location; otherwise it runs the
requesting phase and settles with the request's outcome. -/
def getCurrentLocation (bypassLocationCheck : Bool)
    (result : Except String Coordinates) (s : LocationState) : LocationState :=
  if bypassLocationCheck then
    { s with currentLocation := Option.some ulsanCoords, isLocationEnabled := true }
  else
    settleRequest result (beginRequest s)

/-- A tourist-spot record: the fields of `TouristSpot` that `SpotList` reads,
plus the coordinates the glossary attributes to a spot. -/
structure TouristSpot where
  id : String
  name : String
  district : String
  category : String
  description : String
  address : String
  image : String
  coins : Nat
  visited : Bool
  type : String
  coord : Coordinates

/-- The name/color/textColor triple returned by `getDistrictInfo`. -/
structure DistrictInfo where
  name : String
  color : String
  textColor : String
deriving DecidableEq

/-- The component's `getDistrictInfo`: maps a district code to its display name and colors,
with the catch-all default for unknown codes. -/
def getDistrictInfo (district : String) : DistrictInfo :=
  if district = "jung" then
    { name := "중구", color := "bg-red-500", textColor := "text-red-600" }
  else if district = "nam" then
    { name := "남구", color := "bg-blue-500", textColor := "text-blue-600" }
  else if district = "dong" then
    { name := "동구", color := "bg-yellow-500", textColor := "text-yellow-600" }
  else if district = "buk" then
    { name := "북구", color := "bg-purple-500", textColor := "text-purple-600" }
  else if district = "ulju" then
    { name := "울주군", color := "bg-green-500", textColor := "text-green-600" }
  else
    { name := "기타", color := "bg-gray-500", textColor := "text-gray-600" }

/-- The lucide icon rendered by `getCategoryIcon`. -/
inductive CategoryIcon where
  | star | treePine | building | shoppingBag | bed | camera | zap | utensils
  | route | calendar | mapPin
deriving DecidableEq

/-- The component's `getCategoryIcon`: maps a category label to its icon, defaulting to the
map-pin icon. -/
def getCategoryIcon (category : String) : CategoryIcon :=
  if category = "문화관광" then CategoryIcon.star
  else if category = "자연관광" then CategoryIcon.treePine
  else if category = "역사관광" then CategoryIcon.building
  else if category = "쇼핑" then CategoryIcon.shoppingBag
  else if category = "숙박" then CategoryIcon.bed
  else if category = "체험관광" then CategoryIcon.camera
  else if category = "레저스포츠" then CategoryIcon.zap
  else if category = "음식" then CategoryIcon.utensils
  else if category = "추천코스" then CategoryIcon.route
  else if category = "축제/공연/행사" then CategoryIcon.calendar
  else CategoryIcon.mapPin

/-- The component's `getCategoryColor`: maps a category label to its color classes, with the
gray default. -/
def getCategoryColor (category : String) : String :=
  if category = "문화관광" then "text-blue-600 bg-blue-50"
  else if category = "자연관광" then "text-emerald-600 bg-emerald-50"
  else if category = "역사관광" then "text-violet-600 bg-violet-50"
  else if category = "쇼핑" then "text-emerald-600 bg-emerald-50"
  else if category = "숙박" then "text-amber-600 bg-amber-50"
  else if category = "체험관광" then "text-pink-600 bg-pink-50"
  else if category = "레저스포츠" then "text-red-600 bg-red-50"
  else if category = "음식" then "text-orange-600 bg-orange-50"
  else if category = "추천코스" then "text-violet-600 bg-violet-50"
  else if category = "축제/공연/행사" then "text-red-600 bg-red-50"
  else "text-gray-600 bg-gray-50"

/-- The footer of a spot card: the visit-complete indicator for a visited
spot, otherwise the detail link plus check-in button row. -/
inductive CardFooter where
  | visitComplete
  | checkInButton
deriving DecidableEq

/-- One rendered spot card: the data the JSX shows for a single spot. -/
structure SpotCard where
  id : String
  name : String
  districtInfo : DistrictInfo
  categoryIcon : CategoryIcon
  categoryColor : String
  categoryLabel : String
  coins : Nat
  footer : CardFooter

/-- The card `SpotList` renders for one spot: district info from the spot's
district code, the category chip (icon, color, label), the coin badge, and
the footer chosen by the visited flag. -/
def renderCard (spot : TouristSpot) : SpotCard :=
  { id := spot.id, name := spot.name,
    districtInfo := getDistrictInfo spot.district,
    categoryIcon := getCategoryIcon spot.category,
    categoryColor := getCategoryColor spot.category,
    categoryLabel := spot.category,
    coins := spot.coins,
    footer := if spot.visited then CardFooter.visitComplete else CardFooter.checkInButton }

/-- The body of `SpotList`: `spots.map(...)`, one card per spot in list order. -/
def renderSpotList (spots : List TouristSpot) : List SpotCard :=
  spots.map renderCard

/-- A test-mode spot detail returned by `testModeManager.getTestSpotDetail`. -/
structure TestSpotDetail where
  contentid : String
  contenttypeid : String

/-- The navigation effect of a click: either none, or a navigation to the
check-in route with the given `contentId`, `contentType` and `fromSpotId`
query parameters. -/
inductive NavAction where
  | stay
  | goCheckin : String → String → String → NavAction

/-- The handler `handleCheckInClick`: a visited spot is ignored; in test mode the
navigation uses the test spot detail when one exists for the spot's id and
does nothing otherwise; off test mode it navigates with the spot's own id and
type. -/
def handleCheckInClick (isTestMode : Bool)
    (getTestSpotDetail : String → Option TestSpotDetail)
    (spot : TouristSpot) : NavAction :=
  if spot.visited then
    NavAction.stay
  else if isTestMode then
    match getTestSpotDetail spot.id with
    | Option.some testSpot =>
      NavAction.goCheckin testSpot.contentid testSpot.contenttypeid spot.id
    | Option.none => NavAction.stay
  else
    NavAction.goCheckin spot.id spot.type spot.id

/-- Modelled from the spec: the check-in completion flow (the `/checkin` page
the component navigates to) is not among the sources under src/; the glossary
defines a check-in as a user action that, upon being within the allowed
radius of a spot's coordinates, marks the spot visited and grants the spot's
coins to the user. -/
noncomputable def performCheckIn (bypassLocationCheck : Bool)
    (currentLocation : Option Coordinates) (spot : TouristSpot)
    (allowedRadius : ℝ) (userCoins : Nat) : TouristSpot × Nat :=
  if isWithinRange bypassLocationCheck (hookDistance currentLocation spot.coord)
      allowedRadius then
    ({ spot with visited := true }, userCoins + spot.coins)
  else
    (spot, userCoins)

/-- A concrete spot used to witness theorems with hypotheses. -/
def sampleSpot : TouristSpot :=
  { id := "spot-1", name := "대왕암공원", district := "dong",
    category := "자연관광", description := "울산 동구의 해안 공원",
    address := "울산 동구 등대로 95", image := "/placeholder-image.jpg",
    coins := 50, visited := false, type := "12",
    coord := { lat := 35.4869, lng := 129.4337 } }

/-- The sample spot with the visited flag set. -/
def sampleVisitedSpot : TouristSpot := { sampleSpot with visited := true }

/-! ## Helper lemmas -/

/-- Negating the coordinate difference flips the sign of the half-angle sine. -/
lemma sin_half_toRad_sub_neg (x y : ℝ) :
    Real.sin (toRad (x - y) / 2) = -Real.sin (toRad (y - x) / 2) := by
  have h : toRad (x - y) / 2 = -(toRad (y - x) / 2) := by
    unfold toRad; ring
  rw [h, Real.sin_neg]

/-- The Haversine intermediate `a` is symmetric in its two coordinates. -/
lemma haversineA_comm (a b : Coordinates) : haversineA a b = haversineA b a := by
  unfold haversineA
  rw [sin_half_toRad_sub_neg b.lat a.lat, sin_half_toRad_sub_neg b.lng a.lng]
  ring

/-- The Haversine intermediate `a` vanishes on equal coordinates. -/
lemma haversineA_self (c : Coordinates) : haversineA c c = 0 := by
  unfold haversineA toRad
  simp

/-- Symmetry of `calculateDistance`. -/
lemma calculateDistance_comm (a b : Coordinates) :
    calculateDistance a b = calculateDistance b a := by
  unfold calculateDistance
  rw [haversineA_comm]

/-- The distance of a point to itself is zero. -/
lemma calculateDistance_self (c : Coordinates) : calculateDistance c c = 0 := by
  unfold calculateDistance
  rw [haversineA_self, Real.sqrt_zero]
  have h1 : (1 : ℝ) - 0 = 1 := by norm_num
  rw [h1, Real.sqrt_one]
  unfold atan2
  rw [if_pos (by norm_num : (0 : ℝ) < 1)]
  simp

/-! ## Claim theorems -/

/-- Claim C1: with the bypass off and a non-null current location, the hook's
`isWithinRange` is true exactly when the computed distance from the current
location to the target is at most the allowed radius, which defaults to 300
meters when the prop is omitted. -/
theorem isWithinRange_iff_distance_le (target : Coordinates) (ropt : Option ℝ)
    (current : Coordinates) :
    resolveRadius Option.none = 300 ∧
    (isWithinRange false (hookDistance (Option.some current) target)
        (resolveRadius ropt) = true
      ↔ calculateDistance current target ≤ resolveRadius ropt) := by
  refine ⟨rfl, ?_⟩
  unfold isWithinRange hookDistance
  simp

/-- Claim C2: `calculateDistance` computes exactly the spec's Haversine
great-circle distance with Earth radius 6371000 meters. -/
theorem calculateDistance_eq_spec_haversine (coord1 coord2 : Coordinates) :
    calculateDistance coord1 coord2 = specHaversineDistance coord1 coord2 := by
  have ha : haversineA coord1 coord2 = specHaversineA coord1 coord2 := by
    unfold haversineA specHaversineA
    ring
  unfold calculateDistance specHaversineDistance
  rw [ha]
  norm_num

/-- Claim C3: with the test-mode bypass on, `getCurrentLocation` ignores the
geolocation outcome entirely and sets the fixed Ulsan coordinates
(35.5384, 129.3114) and `isLocationEnabled = true`, and `isWithinRange` is
true for every distance and radius. -/
theorem testMode_bypasses_geolocation (s : LocationState)
    (result : Except String Coordinates) (d : Option ℝ) (r : ℝ) :
    getCurrentLocation true result s
      = { s with currentLocation := Option.some ulsanCoords,
                 isLocationEnabled := true } ∧
    isWithinRange true d r = true :=
  ⟨rfl, rfl⟩

/-- Claim C5: `getCurrentLocation` with the bypass off first enters the
requesting state (`isLoading = true`, error cleared); on success it stores
the coordinates, enables location and clears the error; on failure it stores
the failure message, disables location and leaves `currentLocation`
unchanged; afterwards `isLoading` is false in both outcomes. -/
theorem getCurrentLocation_state_machine (s : LocationState)
    (result : Except String Coordinates) :
    (beginRequest s).isLoading = true ∧
    (beginRequest s).locationError = Option.none ∧
    (getCurrentLocation false result s).isLoading = false ∧
    (match result with
     | Except.ok coords =>
        (getCurrentLocation false result s).currentLocation = Option.some coords ∧
        (getCurrentLocation false result s).isLocationEnabled = true ∧
        (getCurrentLocation false result s).locationError = Option.none
     | Except.error msg =>
        (getCurrentLocation false result s).locationError = Option.some msg ∧
        (getCurrentLocation false result s).isLocationEnabled = false ∧
        (getCurrentLocation false result s).currentLocation = s.currentLocation) := by
  refine ⟨rfl, rfl, ?_, ?_⟩ <;>
    cases result <;>
      simp [getCurrentLocation, settleRequest, beginRequest]

/-- Claim C8: with the bypass off and no current location the hook reports a
null distance and `isWithinRange = false`; the initial state has no current
location, and a geolocation failure leaves `currentLocation` unchanged. -/
theorem no_currentLocation_no_range (target : Coordinates) (r : ℝ)
    (s : LocationState) (msg : String) :
    hookDistance Option.none target = Option.none ∧
    isWithinRange false (hookDistance Option.none target) r = false ∧
    initialState.currentLocation = Option.none ∧
    (getCurrentLocation false (Except.error msg) s).currentLocation
      = s.currentLocation :=
  ⟨rfl, rfl, rfl, rfl⟩

/-- Claim C10: `calculateDistance` is symmetric, and the distance from any
coordinate to itself is zero. -/
theorem calculateDistance_symm_self (a b c : Coordinates) :
    calculateDistance a b = calculateDistance b a ∧ calculateDistance c c = 0 :=
  ⟨calculateDistance_comm a b, calculateDistance_self c⟩

/-- Claim C4: the geolocation request uses a 15000 ms timeout; an unsupported
browser rejects with the unsupported message; failures map through the error
taxonomy: codes 1, 2 and 3 (PERMISSION_DENIED, POSITION_UNAVAILABLE, TIMEOUT)
each get their own message, pairwise distinct and distinct from the generic
message, and every other code gets the generic message. -/
theorem geolocation_error_taxonomy (code : Nat) :
    geoRequestOptions.timeout = 15000 ∧
    getCurrentLocationWithKakao GeoRequestInput.unsupported
      = Except.error unsupportedBrowserMessage ∧
    (geolocationErrorMessage 1 = permissionDeniedMessage ∧
     geolocationErrorMessage 2 = positionUnavailableMessage ∧
     geolocationErrorMessage 3 = timeoutMessage ∧
     ∀ c : Nat, getCurrentLocationWithKakao (GeoRequestInput.geoError c)
       = Except.error (geolocationErrorMessage c)) ∧
    (permissionDeniedMessage ≠ positionUnavailableMessage ∧
     permissionDeniedMessage ≠ timeoutMessage ∧
     positionUnavailableMessage ≠ timeoutMessage ∧
     permissionDeniedMessage ≠ genericGeolocationErrorMessage ∧
     positionUnavailableMessage ≠ genericGeolocationErrorMessage ∧
     timeoutMessage ≠ genericGeolocationErrorMessage) ∧
    (code ≠ 1 → code ≠ 2 → code ≠ 3 →
      geolocationErrorMessage code = genericGeolocationErrorMessage) := by
  refine ⟨rfl, rfl, ⟨rfl, rfl, rfl, fun c => rfl⟩,
    ⟨by decide, by decide, by decide, by decide, by decide, by decide⟩, ?_⟩
  intro h1 h2 h3
  unfold geolocationErrorMessage
  rw [if_neg h1, if_neg h2, if_neg h3]

/-- Witness for claim C4 at the concrete unmatched error code 7. -/
theorem geolocation_error_taxonomy_witness :
    ((7 : Nat) ≠ 1 ∧ (7 : Nat) ≠ 2 ∧ (7 : Nat) ≠ 3) ∧
    geolocationErrorMessage 7 = genericGeolocationErrorMessage :=
  ⟨⟨by decide, by decide, by decide⟩,
    (geolocation_error_taxonomy 7).2.2.2.2 (by decide) (by decide) (by decide)⟩

/-- Claim C6 (spec-modelled completion flow): a check-in performed while
within the allowed radius of the spot's coordinates marks the spot visited
and adds the spot's coins to the user's balance. -/
theorem checkIn_marks_visited_and_grants_coins (bypass : Bool)
    (current : Option Coordinates) (spot : TouristSpot) (radius : ℝ)
    (userCoins : Nat)
    (h : isWithinRange bypass (hookDistance current spot.coord) radius = true) :
    (performCheckIn bypass current spot radius userCoins).1.visited = true ∧
    (performCheckIn bypass current spot radius userCoins).2
      = userCoins + spot.coins := by
  unfold performCheckIn
  rw [h]
  exact ⟨rfl, rfl⟩

/-- Witness for claim C6: the bypass makes the range check pass, so the
check-in on the sample spot marks it visited and grants its 50 coins. -/
theorem checkIn_marks_visited_and_grants_coins_witness :
    isWithinRange true (hookDistance Option.none sampleSpot.coord) 300 = true ∧
    (performCheckIn true Option.none sampleSpot 300 120).1.visited = true ∧
    (performCheckIn true Option.none sampleSpot 300 120).2
      = 120 + sampleSpot.coins :=
  ⟨rfl, checkIn_marks_visited_and_grants_coins true Option.none sampleSpot 300 120 rfl⟩

/-- Claim C7: `SpotList` renders one card per spot in list order; each card
carries the district info mapped from the spot's district code (its name as
listed), the category icon, color and label, the spot's coins, and a
check-in button footer exactly when the spot is not visited. -/
theorem spotList_renders_cards (spots : List TouristSpot) (i : Nat)
    (spot : TouristSpot) :
    (renderSpotList spots).length = spots.length ∧
    (renderSpotList spots)[i]? = Option.map renderCard spots[i]? ∧
    (renderCard spot).districtInfo = getDistrictInfo spot.district ∧
    (renderCard spot).categoryIcon = getCategoryIcon spot.category ∧
    (renderCard spot).categoryColor = getCategoryColor spot.category ∧
    (renderCard spot).categoryLabel = spot.category ∧
    (renderCard spot).coins = spot.coins ∧
    (renderCard spot).footer
      = (if spot.visited then CardFooter.visitComplete else CardFooter.checkInButton) ∧
    (getDistrictInfo "jung").name = "중구" ∧
    (getDistrictInfo "nam").name = "남구" ∧
    (getDistrictInfo "dong").name = "동구" ∧
    (getDistrictInfo "buk").name = "북구" ∧
    (getDistrictInfo "ulju").name = "울주군" := by
  refine ⟨?_, ?_, rfl, rfl, rfl, rfl, rfl, rfl,
    by decide, by decide, by decide, by decide, by decide⟩
  · simp [renderSpotList]
  · simp [renderSpotList, List.getElem?_map]

/-- Claim C9: a visited spot's click handler performs no navigation (and its
card renders the visit-complete footer instead of the check-in button); in
test mode the handler also performs no navigation when no test spot detail
exists for the spot's id. -/
theorem handleCheckInClick_guards (isTestMode : Bool)
    (getTestSpotDetail : String → Option TestSpotDetail) (spot : TouristSpot) :
    (spot.visited = true →
      handleCheckInClick isTestMode getTestSpotDetail spot = NavAction.stay) ∧
    (spot.visited = true →
      (renderCard spot).footer = CardFooter.visitComplete) ∧
    (getTestSpotDetail spot.id = Option.none →
      handleCheckInClick true getTestSpotDetail spot = NavAction.stay) := by
  refine ⟨fun hv => ?_, fun hv => ?_, fun hl => ?_⟩
  · simp [handleCheckInClick, hv]
  · simp [renderCard, hv]
  · by_cases hv : spot.visited <;> simp [handleCheckInClick, hv, hl]

/-- Witness for claim C9: the visited sample spot and an empty test-detail
lookup, in and out of test mode. -/
theorem handleCheckInClick_guards_witness :
    sampleVisitedSpot.visited = true ∧
    (fun _ : String => (Option.none : Option TestSpotDetail))
        sampleVisitedSpot.id = Option.none ∧
    handleCheckInClick false (fun _ => Option.none) sampleVisitedSpot
      = NavAction.stay ∧
    (renderCard sampleVisitedSpot).footer = CardFooter.visitComplete ∧
    handleCheckInClick true (fun _ => Option.none) sampleVisitedSpot
      = NavAction.stay := by
  refine ⟨rfl, rfl, ?_, ?_, ?_⟩
  · exact (handleCheckInClick_guards false (fun _ => Option.none)
      sampleVisitedSpot).1 rfl
  · exact (handleCheckInClick_guards false (fun _ => Option.none)
      sampleVisitedSpot).2.1 rfl
  · exact (handleCheckInClick_guards true (fun _ => Option.none)
      sampleVisitedSpot).2.2 rfl
